import Mathlib

/-!
Shallow embedding of the alarm extraction backend of the AHS alarm-analysis
repository (`backend/alarm_extractor.py`, `backend/main.py`,
`backend/models.py`).  Numeric telemetry values are modelled as exact
rationals, Python dictionaries as structures with optional fields, and the
cooperative-cancellation checkpoints of the extraction pipeline as a state
monad over a query log and a checkpoint counter.  Datetime formatting
(`strftime`) is abstracted: the environment supplies the already formatted
window strings, which every claim treats as opaque.
-/

namespace AlarmAnalysis

/-- Decides whether the first character list is a prefix of the second
(used to implement the substring test of Python's `in` operator). -/
def strStarts : List Char → List Char → Bool
  | [], _ => true
  | _ :: _, [] => false
  | a :: as, b :: bs => a == b && strStarts as bs

/-- Decides whether `p` occurs as a contiguous sublist of the second list. -/
def strContainsL (p : List Char) : List Char → Bool
  | [] => p.isEmpty
  | b :: rest => strStarts p (b :: rest) || strContainsL p rest

/-- Python's `needle in haystack` test on strings. -/
def strContains (needle hay : String) : Bool :=
  strContainsL needle.toList hay.toList

/-- Python's `str.lower()` restricted to ASCII, over the character list
(Lean's `String.toLower` is extensionally the same on ASCII input but does
not reduce in the kernel). -/
def toLowerStr (s : String) : String := String.mk (s.toList.map Char.toLower)

/-- Python's `str.split()` with no argument: split on whitespace and drop
empty pieces. -/
def pySplit (s : String) : List String :=
  (s.split Char.isWhitespace).filter (fun t => !t.isEmpty)

/-- The single-quote character, written via its code point. -/
def sq : String := (Char.ofNat 39).toString

/-- Number of single-quote characters occurring in a string. -/
def quoteCount (s : String) : Nat :=
  s.toList.countP (fun c => c.toNat == 39)

/-- From `_classify_alarm` (alarm_extractor.py:293-296): an alarm type
matches a lowercased title iff every lowercase whitespace-delimited keyword
of the type occurs as a substring of the title. -/
def keyword_match (title_lower : String) (alarm_type : String) : Bool :=
  (pySplit (toLowerStr alarm_type)).all (fun keyword => strContains keyword title_lower)

/-- Model of `_classify_alarm` (alarm_extractor.py:289-299): walk the catalog in
order and return the first entry whose keywords all occur in the lowercased
title, `none` if no entry matches. -/
def classify_alarm (ALARM_TYPES : List String) (title : String) : Option String :=
  let title_lower := toLowerStr title
  ALARM_TYPES.find? (fun alarm_type => keyword_match title_lower alarm_type)

/-- Constant `self.deg_factor = 0.0174444` (alarm_extractor.py:25), the
radian-to-degree conversion factor. -/
def deg_factor : ℚ := 0.0174444

/-- Python's `round` to an integer: round half to even. -/
def py_round_int (q : ℚ) : ℤ :=
  let f := ⌊q⌋
  let r := q - (f : ℚ)
  if r < 1/2 then f
  else if 1/2 < r then f + 1
  else if f % 2 = 0 then f else f + 1

/-- Python's `round(x, 2)`. -/
def round2 (q : ℚ) : ℚ := (py_round_int (q * 100) : ℚ) / 100

/-- Speed reduction of `_get_telemetry_at_timestamp_with_cancellation`
(alarm_extractor.py:695-699): rows with a null `Value` are discarded, the
maximum absolute value is converted to km/h by the fixed factor 3.6, and
the field stays absent when there are no rows or no non-null values. -/
def speed_kmh_of (points : List (Option ℚ)) : Option ℚ :=
  if points.isEmpty then none
  else
    let speed_values := (points.filterMap id).map (fun v => |v|)
    match speed_values.max? with
    | none => none
    | some m => some (m * 3.6)

/-- Off-path reduction (alarm_extractor.py:723-727): maximum absolute
value of the non-null rows, rounded to 2 decimal places. -/
def off_path_of (points : List (Option ℚ)) : Option ℚ :=
  if points.isEmpty then none
  else
    let offpath_values := (points.filterMap id).map (fun v => |v|)
    match offpath_values.max? with
    | none => none
    | some m => some (round2 m)

/-- Pitch and roll reduction (alarm_extractor.py:752-760 and 785-793, the
two blocks are textually identical up to the measurement name): every
non-null raw sample is divided by `deg_factor`, and the result is the
maximum absolute converted value together with the unmodified minimum and
maximum converted values, each rounded to 2 decimal places. -/
def attitude_of (points : List (Option ℚ)) : Option (ℚ × ℚ × ℚ) :=
  if points.isEmpty then none
  else
    let values := (points.filterMap id).map (fun v => v / deg_factor)
    match (values.map (fun v => |v|)).max?, values.min?, values.max? with
    | some mA, some mn, some mx => some (round2 mA, round2 mn, round2 mx)
    | _, _, _ => none

/-- Vehicle equality condition (alarm_extractor.py:584): the identifier is
interpolated verbatim between single quotes, with no escaping. -/
def vehicle_condition (vehicle : String) : String :=
  "\"Vehicle\" = " ++ sq ++ vehicle ++ sq

/-- Per-alarm-type title pattern (alarm_extractor.py:574): spaces in the
alarm text are replaced by `.*` and the result is interpolated verbatim
into a regex literal, with no escaping. -/
def alarm_condition (alarm : String) : String :=
  "\"Title\" =~ /.*" ++ (alarm.replace " " ".*") ++ ".*/"

/-- Alarm-locator query text (alarm_extractor.py:588-594), with the
whitespace of the Python triple-quoted string normalised. -/
def notification_query (start_str end_str alarm_filterS vehicle_filterS : String) : String :=
  "SELECT \"Title\", \"Vehicle\", time FROM \"MobiusLog\".\"defaultMobiusPolicy\".\"Notification State\" WHERE time >= "
    ++ sq ++ start_str ++ sq ++ " AND time < " ++ sq ++ end_str ++ sq
    ++ " AND (" ++ alarm_filterS ++ ")" ++ vehicle_filterS ++ " ORDER BY time DESC"

/-- GPS position query (alarm_extractor.py:662-667). -/
def gps_query (start_str end_str vehicle : String) : String :=
  "SELECT \"Value.Latitude\", \"Value.Longitude\" FROM \"MobiusLog\".\"defaultMobiusPolicy\".\"PositionGroup.GlobalPosition\" WHERE time >= "
    ++ sq ++ start_str ++ sq ++ " AND time < " ++ sq ++ end_str ++ sq
    ++ " AND " ++ vehicle_condition vehicle ++ " LIMIT 1"

/-- Speed query of the cancellation-aware telemetry path
(alarm_extractor.py:687-691).  Unlike its non-cancellation twin
(alarm_extractor.py:346-352), it carries no ORDER BY and no LIMIT clause. -/
def speed_query (start_str end_str vehicle : String) : String :=
  "SELECT \"Value\" FROM \"MobiusLog\".\"defaultMobiusPolicy\".\"Velocity X\" WHERE time >= "
    ++ sq ++ start_str ++ sq ++ " AND time < " ++ sq ++ end_str ++ sq
    ++ " AND " ++ vehicle_condition vehicle

/-- Off-path query (alarm_extractor.py:713-719). -/
def offpath_query (start_str end_str vehicle : String) (max_points : Nat) : String :=
  "SELECT \"Value\" FROM \"MobiusLog\".\"defaultMobiusPolicy\".\"Off Path Error\" WHERE time >= "
    ++ sq ++ start_str ++ sq ++ " AND time < " ++ sq ++ end_str ++ sq
    ++ " AND " ++ vehicle_condition vehicle ++ " ORDER BY time DESC LIMIT " ++ toString max_points

/-- Pitch query (alarm_extractor.py:742-748). -/
def pitch_query (start_str end_str vehicle : String) (max_points : Nat) : String :=
  "SELECT \"Value\" FROM \"MobiusLog\".\"defaultMobiusPolicy\".\"Attitude Pitch\" WHERE time >= "
    ++ sq ++ start_str ++ sq ++ " AND time < " ++ sq ++ end_str ++ sq
    ++ " AND " ++ vehicle_condition vehicle ++ " ORDER BY time DESC LIMIT " ++ toString max_points

/-- Roll query (alarm_extractor.py:775-781). -/
def roll_query (start_str end_str vehicle : String) (max_points : Nat) : String :=
  "SELECT \"Value\" FROM \"MobiusLog\".\"defaultMobiusPolicy\".\"Attitude Roll\" WHERE time >= "
    ++ sq ++ start_str ++ sq ++ " AND time < " ++ sq ++ end_str ++ sq
    ++ " AND " ++ vehicle_condition vehicle ++ " ORDER BY time DESC LIMIT " ++ toString max_points

/-- A sub-query is capped and ordered most-recent-first when its text
carries both an `ORDER BY time DESC` clause and a `LIMIT n` clause. -/
def capped_most_recent_first (q : String) (n : Nat) : Prop :=
  strContains "ORDER BY time DESC" q = true ∧ strContains ("LIMIT " ++ toString n) q = true

/-- State threaded through a job: the checkpoint counter (one tick per
read of the extractor's cancellation state) and the log of query texts
sent to the store. -/
structure St where
  tick : Nat
  qlog : List String
deriving DecidableEq

/-- Result of a pipeline step: Python exceptions are modelled as string
messages (`alarm_extractor.py` distinguishes cancellation from other
failures only by the substring `"cancelled"` of the message). -/
inductive Res (α : Type) where
  | ok (a : α) (s : St)
  | err (e : String) (s : St)

/-- The pipeline monad: state plus string-message exceptions. -/
def M (α : Type) := St → Res α

def M.pure (a : α) : M α := fun s => .ok a s

def M.bind (x : M α) (f : α → M β) : M β := fun s =>
  match x s with
  | .ok a s₁ => f a s₁
  | .err e s₁ => .err e s₁

instance : Monad M where
  pure := M.pure
  bind := M.bind

/-- Python `raise` of an exception. -/
def M.raise (e : String) : M α := fun s => .err e s

/-- Python `try ... except Exception as e: ...`. -/
def M.attempt (x : M α) (handler : String → M α) : M α := fun s =>
  match x s with
  | .ok a s₁ => .ok a s₁
  | .err e s₁ => handler e s₁

/-- Record a query text as issued to the store. -/
def M.logQuery (q : String) : M Unit := fun s => .ok () { s with qlog := s.qlog ++ [q] }

/-- Cancellation environment of one extraction.  The extractor's mutable
`self.cancelled` flag is reset to `False` when `extract_alarm_events`
starts (alarm_extractor.py:172), so a request made before that point and
not re-asserted is discarded; `flag_from` gives the checkpoint tick from
which the flag reads `True` after the reset, and `check` is the optional
externally supplied `cancellation_check` predicate, consulted per tick. -/
structure CancelEnv where
  flag_from : Option Nat
  check : Option (Nat → Bool)

/-- Value of `self.cancelled` at a checkpoint tick. -/
def flag_at (c : CancelEnv) (t : Nat) : Bool :=
  match c.flag_from with
  | none => false
  | some k => decide (k ≤ t)

/-- Value of `cancellation_check()` at a checkpoint tick (`False` when no
predicate was supplied, as `main.py` does). -/
def check_at (c : CancelEnv) (t : Nat) : Bool :=
  match c.check with
  | none => false
  | some f => f t

/-- Read `self.cancelled` alone, consuming one tick. -/
def read_flag (c : CancelEnv) : M Bool := fun s =>
  .ok (flag_at c s.tick) { s with tick := s.tick + 1 }

/-- Read `self.cancelled or (cancellation_check and cancellation_check())`,
consuming one tick. -/
def read_cancel (c : CancelEnv) : M Bool := fun s =>
  .ok (flag_at c s.tick || check_at c s.tick) { s with tick := s.tick + 1 }

/-- The `"cancelled" in str(e).lower()` test applied throughout the
extractor. -/
def is_cancel_msg (e : String) : Bool := strContains "cancelled" (toLowerStr e)

/-- Model of `_execute_query_with_cancellation` (alarm_extractor.py:84-127): check
the flag before submitting, poll it while waiting, and re-tag errors as
cancellation when the flag is set or the message already says so.  The
store's response is supplied by the environment as `outcome`. -/
def execute_query_with_cancellation (c : CancelEnv) (outcome : Except String α)
    (q : String) (query_name : String) : M α := do
  let fl ← read_flag c
  if fl then M.raise ("Extraction cancelled before " ++ query_name)
  else do
    M.logQuery q
    match outcome with
    | .ok rows => do
        let fl₂ ← read_flag c
        if fl₂ then M.raise ("Extraction cancelled during " ++ query_name)
        else M.pure rows
    | .error e => do
        let fl₃ ← read_flag c
        if fl₃ || is_cancel_msg e then M.raise ("Extraction cancelled during " ++ query_name)
        else M.raise e

/-- Model of `_query_with_cancellation` (alarm_extractor.py:140-157). -/
def query_with_cancellation (c : CancelEnv) (outcome : Except String α)
    (q : String) (query_name : String) : M α := do
  let fl ← read_flag c
  if fl then M.raise ("Extraction cancelled before " ++ query_name)
  else
    M.attempt
      (do
        let result ← execute_query_with_cancellation c outcome q query_name
        let fl₂ ← read_flag c
        if fl₂ then M.raise ("Extraction cancelled during " ++ query_name)
        else M.pure result)
      (fun e => do
        let fl₃ ← read_flag c
        if fl₃ then M.raise ("Extraction cancelled during " ++ query_name)
        else M.raise e)

/-- One row of the notification-state query; `Title` and `Vehicle` may be
absent from a point. -/
structure AlarmPoint where
  Title : Option String
  Vehicle : Option String
  time : String
deriving DecidableEq

/-- One classified alarm event (alarm_extractor.py:614-619). -/
structure AlarmEventRec where
  alarm_type : String
  vehicle : Option String
  timestamp : String
  title : String
deriving DecidableEq

/-- Timestamp rewrite `point['time'].replace('Z', '+00:00')` of the source: only
the string rewrite is modelled, the parsed instant stays a string. -/
def parse_time (t : String) : String := t.replace "Z" "+00:00"

/-- Join with `" OR "` over the selected alarms present in the catalog
(alarm_extractor.py:571-574): selection order is kept, entries absent from
`ALARM_TYPES` are silently dropped. -/
def alarm_conditions_of (selected_alarms catalog : List String) : List String :=
  (selected_alarms.filter (fun alarm => catalog.contains alarm)).map alarm_condition

/-- Vehicle filter clause (alarm_extractor.py:582-585); `None` and the
empty list are both falsy in Python, yielding no clause. -/
def vehicle_filter_of (selected_vehicles : Option (List String)) : String :=
  match selected_vehicles with
  | none => ""
  | some [] => ""
  | some (v :: vs) =>
      " AND (" ++ String.intercalate " OR " ((v :: vs).map vehicle_condition) ++ ")"

/-- Classification loop over returned points (alarm_extractor.py:605-619),
with its per-point cancellation checkpoint. -/
def classify_points (c : CancelEnv) (catalog : List String) :
    List AlarmPoint → List AlarmEventRec → M (List AlarmEventRec)
  | [], acc => M.pure acc
  | point :: rest, acc => do
      let cc ← read_cancel c
      if cc then M.raise "Extraction cancelled during alarm timestamp processing"
      else
        match classify_alarm catalog (point.Title.getD "") with
        | some t =>
            classify_points c catalog rest
              (acc ++ [{ alarm_type := t, vehicle := point.Vehicle,
                         timestamp := parse_time point.time, title := point.Title.getD "" }])
        | none => classify_points c catalog rest acc

/-- Model of `_get_alarm_timestamps_with_cancellation` (alarm_extractor.py:554-627).
When no selected alarm intersects the catalog it returns `[]` before any
query; on a non-cancellation query failure it logs the error and returns
`[]` instead of raising. -/
def get_alarm_timestamps_with_cancellation (c : CancelEnv) (catalog : List String)
    (outcome : Except String (List AlarmPoint)) (start_str end_str : String)
    (selected_alarms : List String) (selected_vehicles : Option (List String)) :
    M (List AlarmEventRec) := do
  let cc ← read_cancel c
  if cc then M.raise "Extraction cancelled before alarm timestamp query"
  else
    let alarm_conditions := alarm_conditions_of selected_alarms catalog
    if alarm_conditions.isEmpty then M.pure []
    else
      let query := notification_query start_str end_str
        (String.intercalate " OR " alarm_conditions) (vehicle_filter_of selected_vehicles)
      M.attempt
        (do
          let points ← query_with_cancellation c outcome query "alarm timestamps query"
          let cc₂ ← read_cancel c
          if cc₂ then M.raise "Extraction cancelled after alarm timestamp query"
          else classify_points c catalog points [])
        (fun e => do
          let fl ← read_flag c
          if fl || is_cancel_msg e then
            M.raise "Extraction cancelled during alarm timestamp retrieval"
          else M.pure [])

/-- One GPS row: `Value.Latitude` / `Value.Longitude` may be null. -/
structure GpsRow where
  lat : Option ℚ
  lon : Option ℚ
deriving DecidableEq

/-- Store responses for the five telemetry sub-queries of one event. -/
structure TelemetryOutcome where
  gps : Except String (List GpsRow)
  speed : Except String (List (Option ℚ))
  offpath : Except String (List (Option ℚ))
  pitch : Except String (List (Option ℚ))
  roll : Except String (List (Option ℚ))

/-- The `telemetry_data` dictionary (alarm_extractor.py:642-655); every
field starts absent.  `steering_command` and `throttle_command` are
declared in the source and never assigned. -/
structure TelemetryData where
  latitude : Option ℚ := none
  longitude : Option ℚ := none
  speed_kmh : Option ℚ := none
  off_path_error_m : Option ℚ := none
  steering_command : Option ℚ := none
  throttle_command : Option ℚ := none
  pitch_deg : Option ℚ := none
  pitch_min_deg : Option ℚ := none
  pitch_max_deg : Option ℚ := none
  roll_deg : Option ℚ := none
  roll_min_deg : Option ℚ := none
  roll_max_deg : Option ℚ := none
deriving DecidableEq

/-- GPS block (alarm_extractor.py:657-680): first row's coordinates, with
non-cancellation failures logged and swallowed. -/
def run_gps_block (c : CancelEnv) (o : TelemetryOutcome) (q vehicle : String)
    (td : TelemetryData) : M TelemetryData :=
  M.attempt
    (do
      let cc ← read_cancel c
      if cc then M.raise "Extraction cancelled before GPS query"
      else do
        let points ← query_with_cancellation c o.gps q ("GPS query for " ++ vehicle)
        match points with
        | [] => M.pure td
        | p :: _ => M.pure { td with latitude := p.lat, longitude := p.lon })
    (fun e => do
      let fl ← read_flag c
      if fl || is_cancel_msg e then M.raise "Extraction cancelled during GPS telemetry query"
      else M.pure td)

/-- Speed block (alarm_extractor.py:682-706). -/
def run_speed_block (c : CancelEnv) (o : TelemetryOutcome) (q vehicle : String)
    (td : TelemetryData) : M TelemetryData :=
  M.attempt
    (do
      let cc ← read_cancel c
      if cc then M.raise "Extraction cancelled before speed query"
      else do
        let points ← query_with_cancellation c o.speed q ("speed query for " ++ vehicle)
        match speed_kmh_of points with
        | some v => M.pure { td with speed_kmh := some v }
        | none => M.pure td)
    (fun e => do
      let fl ← read_flag c
      if fl || is_cancel_msg e then M.raise "Extraction cancelled during speed telemetry query"
      else M.pure td)

/-- Off-path block (alarm_extractor.py:708-735). -/
def run_offpath_block (c : CancelEnv) (o : TelemetryOutcome) (q vehicle : String)
    (td : TelemetryData) : M TelemetryData :=
  M.attempt
    (do
      let cc ← read_cancel c
      if cc then M.raise "Extraction cancelled before off-path query"
      else do
        let points ← query_with_cancellation c o.offpath q ("off-path query for " ++ vehicle)
        match off_path_of points with
        | some v => M.pure { td with off_path_error_m := some v }
        | none => M.pure td)
    (fun e => do
      let fl ← read_flag c
      if fl || is_cancel_msg e then M.raise "Extraction cancelled during off-path telemetry query"
      else M.pure td)

/-- Pitch block (alarm_extractor.py:737-768). -/
def run_pitch_block (c : CancelEnv) (o : TelemetryOutcome) (q vehicle : String)
    (td : TelemetryData) : M TelemetryData :=
  M.attempt
    (do
      let cc ← read_cancel c
      if cc then M.raise "Extraction cancelled before pitch query"
      else do
        let points ← query_with_cancellation c o.pitch q ("pitch query for " ++ vehicle)
        match attitude_of points with
        | some v =>
            M.pure { td with pitch_deg := some v.1, pitch_min_deg := some v.2.1,
                             pitch_max_deg := some v.2.2 }
        | none => M.pure td)
    (fun e => do
      let fl ← read_flag c
      if fl || is_cancel_msg e then M.raise "Extraction cancelled during pitch telemetry query"
      else M.pure td)

/-- Roll block (alarm_extractor.py:770-801). -/
def run_roll_block (c : CancelEnv) (o : TelemetryOutcome) (q vehicle : String)
    (td : TelemetryData) : M TelemetryData :=
  M.attempt
    (do
      let cc ← read_cancel c
      if cc then M.raise "Extraction cancelled before roll query"
      else do
        let points ← query_with_cancellation c o.roll q ("roll query for " ++ vehicle)
        match attitude_of points with
        | some v =>
            M.pure { td with roll_deg := some v.1, roll_min_deg := some v.2.1,
                             roll_max_deg := some v.2.2 }
        | none => M.pure td)
    (fun e => do
      let fl ← read_flag c
      if fl || is_cancel_msg e then M.raise "Extraction cancelled during roll telemetry query"
      else M.pure td)

/-- Model of `_get_telemetry_at_timestamp_with_cancellation`
(alarm_extractor.py:629-803): the five sub-queries in their fixed order,
over the window strings supplied by the environment. -/
def get_telemetry_at_timestamp_with_cancellation (c : CancelEnv) (o : TelemetryOutcome)
    (vehicle start_str end_str : String) (max_points : Nat) : M TelemetryData := do
  let cc ← read_cancel c
  if cc then M.raise "Extraction cancelled before telemetry query"
  else do
    let td : TelemetryData := {}
    let td ← run_gps_block c o (gps_query start_str end_str vehicle) vehicle td
    let td ← run_speed_block c o (speed_query start_str end_str vehicle) vehicle td
    let td ← run_offpath_block c o (offpath_query start_str end_str vehicle max_points) vehicle td
    let td ← run_pitch_block c o (pitch_query start_str end_str vehicle max_points) vehicle td
    let td ← run_roll_block c o (roll_query start_str end_str vehicle max_points) vehicle td
    M.pure td

/-- One enriched event: `{**event, **telemetry}` (alarm_extractor.py:212-215). -/
structure EnrichedEvent where
  event : AlarmEventRec
  telemetry : TelemetryData
deriving DecidableEq

/-- Store-side environment of one extraction: connection outcome, the
notification-query response, per-event telemetry responses, and the
already formatted time strings (strftime is abstracted). -/
structure ExtractEnv where
  connected : Bool
  locator_outcome : Except String (List AlarmPoint)
  telemetry : Nat → TelemetryOutcome
  windows : Nat → String × String
  outer_window : String × String

/-- Enrichment loop of `extract_alarm_events` (alarm_extractor.py:197-219):
per-event cancellation checkpoint, telemetry correlation, accumulate. -/
def enrich_events (c : CancelEnv) (env : ExtractEnv) (max_points : Nat) :
    Nat → List AlarmEventRec → List EnrichedEvent → M (List EnrichedEvent)
  | _, [], acc => M.pure acc
  | i, ev :: rest, acc => do
      let cc ← read_cancel c
      if cc then M.raise "Extraction cancelled by user"
      else do
        let ws := env.windows i
        let td ← get_telemetry_at_timestamp_with_cancellation c (env.telemetry i)
          (ev.vehicle.getD "None") ws.1 ws.2 max_points
        enrich_events c env max_points (i + 1) rest (acc ++ [⟨ev, td⟩])

/-- Model of `extract_alarm_events` (alarm_extractor.py:159-228).  The
`self.cancelled = False` reset at line 172 is where the checkpoint counter
of `CancelEnv` starts; a cancellation request made earlier and not
re-asserted is discarded by that reset and therefore absent from the
schedule.  The duration guard precedes the connection guard, and the
final handler re-raises any cancellation as `"Extraction cancelled by
user"`. -/
def extract_alarm_events (c : CancelEnv) (env : ExtractEnv)
    (start_time end_time : ℚ) (selected_alarms : List String)
    (selected_vehicles : Option (List String)) (catalog : List String)
    (max_points : Nat) (max_hours : ℚ) : M (List EnrichedEvent) :=
  let duration_hours := (end_time - start_time) / 3600
  if max_hours < duration_hours then
    M.raise "Time range exceeds maximum hours"
  else if !env.connected then
    M.raise "Not connected to InfluxDB"
  else
    M.attempt
      (do
        let alarm_events ← get_alarm_timestamps_with_cancellation c catalog
          env.locator_outcome env.outer_window.1 env.outer_window.2
          selected_alarms selected_vehicles
        if alarm_events.isEmpty then M.pure []
        else enrich_events c env max_points 0 alarm_events [])
      (fun e => do
        let fl ← read_flag c
        if fl || is_cancel_msg e then M.raise "Extraction cancelled by user"
        else M.raise e)

/-- Extraction-summary record (main.py:219-226); Python's `set` is
modelled by `dedup`, keeping first occurrences. -/
structure SummaryRec where
  total_events : Nat
  unique_vehicles : Nat
  vehicles : List (Option String)
  alarm_types_found : List String
deriving DecidableEq

/-- Summary statistics computed on completion (main.py:216-226). -/
def summary_of (events : List EnrichedEvent) : SummaryRec :=
  let unique_vehicles := (events.map (fun ev => ev.event.vehicle)).dedup
  { total_events := events.length,
    unique_vehicles := unique_vehicles.length,
    vehicles := unique_vehicles,
    alarm_types_found := (events.map (fun ev => ev.event.alarm_type)).dedup }

/-- One entry of `active_extractions` (main.py:126-134), restricted to the
fields the pipeline mutates; `start_time` and the request are carried
outside the model. -/
structure JobRecord where
  status : String
  message : String
  progress : Nat
  current_operation : String
  alarm_events : List EnrichedEvent
  summary : Option SummaryRec
deriving DecidableEq

/-- Model of `create_extraction_job` (main.py:122-137). -/
def create_extraction_job : JobRecord :=
  { status := "pending", message := "Extraction job created", progress := 0,
    current_operation := "Initializing alarm extraction", alarm_events := [],
    summary := none }

/-- The `except` handler of `run_alarm_extraction` (main.py:259-267): a
dict update touching only `status`, `message` and `current_operation`. -/
def failure_update (j : JobRecord) (e : String) : JobRecord :=
  { j with status := "failed",
           message := "Extraction failed: " ++ e,
           current_operation := "Failed: " ++ e }

/-- The configuration read at job start (main.py:154-164). -/
structure RunEnv where
  env : ExtractEnv
  flag_from : Option Nat
  request_start : ℚ
  request_end : ℚ
  selected_alarms : List String
  selected_vehicles : Option (List String)
  catalog : List String
  max_points : Nat

/-- The smoke-test query issued by `connect` (alarm_extractor.py:67). -/
def connection_test_query : String := "SHOW MEASUREMENTS LIMIT 1"

/-- Result of a pipeline step with the final state erased. -/
def result_of {α : Type} : Res α → Except String α
  | .ok a _ => .ok a
  | .err e _ => .error e

/-- The cancellation environment of a job with no cancellation request. -/
def no_cancel : CancelEnv := { flag_from := none, check := none }

/-- Job state before the connection test. -/
def init_st : St := { tick := 0, qlog := [] }

/-- Job state after the successful connection test. -/
def conn_st : St := { tick := 0, qlog := [connection_test_query] }

/-- The job record after the `running` update (main.py:146-151). -/
def running_job : JobRecord :=
  { create_extraction_job with
      status := "running", message := "Connecting to InfluxDB...",
      progress := 10, current_operation := "Establishing InfluxDB connection" }

/-- The job record after the post-connect update (main.py:172-176). -/
def connected_job : JobRecord :=
  { running_job with
      message := "Connected to InfluxDB, extracting alarm events...",
      progress := 20,
      current_operation := "Extracting alarm events from time range" }

/-- The `completed` update (main.py:239-246). -/
def completed_job (events : List EnrichedEvent) : JobRecord :=
  { connected_job with
      status := "completed",
      message := "Completed: " ++ toString events.length ++ " alarm events extracted",
      progress := 100, alarm_events := events,
      summary := some (summary_of events),
      current_operation := "Alarm extraction completed successfully" }

/-- The extraction call made by the orchestrator (main.py:182-188):
`main.py` passes no `cancellation_check`, so the job's `CancelEnv`
carries `check := none`, and `max_hours = 30.0`. -/
def job_extract (r : RunEnv) : Res (List EnrichedEvent) :=
  extract_alarm_events { flag_from := r.flag_from, check := none } r.env
    r.request_start r.request_end r.selected_alarms r.selected_vehicles
    r.catalog r.max_points 30 conn_st

/-- Model of `run_alarm_extraction` (main.py:139-273): pending record, `running`
update, connect (a failed or cancelled connection test makes `connect`
return `False`), extraction, then the `completed` update or the failure
handler. -/
def run_alarm_extraction (r : RunEnv) : JobRecord × St :=
  if !r.env.connected then
    (failure_update running_job "Failed to connect to InfluxDB", init_st)
  else
    match job_extract r with
    | .ok events s₂ => (completed_job events, s₂)
    | .err e s₂ => (failure_update connected_job e, s₂)

/-- Shape of the `/extract/{job_id}` status poll (main.py:336-344). -/
structure StatusOut where
  status : String
  message : String
  progress : Nat
  current_operation : String
  alarm_events_found : Nat
  vehicles_found : Nat
  data_points_extracted : Nat
deriving DecidableEq

/-- Model of `get_extraction_status` (main.py:328-344). -/
def get_extraction_status (j : JobRecord) : StatusOut :=
  { status := j.status, message := j.message, progress := j.progress,
    current_operation := j.current_operation,
    alarm_events_found := j.alarm_events.length,
    vehicles_found := ((j.alarm_events.map (fun ev => ev.event.vehicle)).dedup).length,
    data_points_extracted := j.alarm_events.length }

/-- Model of `TimeRange.validate_time_range` (models.py:94-109), over instants in
seconds: rejects `end ≤ start`, a duration above 30 hours, and a duration
below 0.002 hours.  Pydantic runs it while parsing the request, before a
job exists. -/
def validate_time_range (start v : ℚ) : Except String ℚ :=
  if v ≤ start then .error "End time must be after start time"
  else
    let duration_hours := (v - start) / 3600
    if 30 < duration_hours then .error "Time range cannot exceed 30 hours"
    else if duration_hours < 0.002 then .error "Time range must be at least 6 seconds"
    else .ok v

/-- The `/extract-data` submission path (main.py:294-326): request-model
validation first, then the empty-selection guard (main.py:303-307); only a
request passing both creates and schedules a job. -/
def submit_extraction (start endT : ℚ) (selected_alarms : List String) :
    Except String Unit :=
  match validate_time_range start endT with
  | .error e => .error e
  | .ok _ =>
      if selected_alarms.isEmpty then .error "At least one alarm type must be selected"
      else .ok ()

/-- Queries the system issues for a request: none when submission is
rejected, otherwise those of the scheduled job. -/
def system_queries (start endT : ℚ) (selected_alarms : List String) (r : RunEnv) :
    List String :=
  match submit_extraction start endT selected_alarms with
  | .error _ => []
  | .ok _ => (run_alarm_extraction r).2.qlog

/-- Telemetry responses that all succeed with no rows. -/
def telemetry_ok : TelemetryOutcome :=
  { gps := .ok [], speed := .ok [], offpath := .ok [], pitch := .ok [], roll := .ok [] }

/-- One notification row whose title classifies as `Off Path`. -/
def sample_locator_row : AlarmPoint :=
  { Title := some "Vehicle Off Path - Speed Reduced", Vehicle := some "DT059",
    time := "2024-01-15T10:30:00Z" }

/-- A healthy store environment returning one matching notification row. -/
def base_extract_env : ExtractEnv :=
  { connected := true, locator_outcome := .ok [sample_locator_row],
    telemetry := fun _ => telemetry_ok, windows := fun _ => ("ws", "we"),
    outer_window := ("2024-01-15T10:00:00Z", "2024-01-15T11:00:00Z") }

/-- A one-hour job over the healthy environment with no cancellation. -/
def base_run_env : RunEnv :=
  { env := base_extract_env, flag_from := none, request_start := 0,
    request_end := 3600, selected_alarms := ["Off Path"],
    selected_vehicles := none, catalog := ["Off Path"], max_points := 1000 }

/-- The same job with cancellation requested from the very first
checkpoint, before any sub-query begins. -/
def run_env_cancelled : RunEnv := { base_run_env with flag_from := some 0 }

/-- The same job with the alarm-locator query failing by timeout. -/
def run_env_locator_timeout : RunEnv :=
  { base_run_env with
      env := { base_extract_env with
                 locator_outcome := .error "Query timeout after 10s: alarm timestamps query" } }

/-- The same job selecting only an alarm type absent from the catalog. -/
def run_env_unknown_alarm : RunEnv :=
  { base_run_env with selected_alarms := ["Some Alarm Nobody Configured"] }

/-- The same job with the store connection failing. -/
def run_env_conn_fail : RunEnv :=
  { base_run_env with env := { base_extract_env with connected := false } }

/-- A vehicle identifier carrying a classic quote-injection payload. -/
def inj_vehicle : String :=
  "DT059" ++ sq ++ " OR " ++ sq ++ "1" ++ sq ++ "=" ++ sq ++ "1"

/-- The non-null samples of a window converted to degrees, as used in the
pitch and roll blocks. -/
def conv_deg (points : List (Option ℚ)) : List ℚ :=
  (points.filterMap id).map (fun v => v / deg_factor)

/-- Characterisation of `List.max?` over the rationals. -/
theorem max?_rat_iff (l : List ℚ) (m : ℚ) :
    l.max? = some m ↔ m ∈ l ∧ ∀ x ∈ l, x ≤ m := by
  haveI : Std.Antisymm (fun (x1 x2 : ℚ) => x1 ≤ x2) := ⟨fun h h2 => le_antisymm h h2⟩
  exact List.max?_eq_some_iff (fun _ => le_refl _) max_choice (fun _ _ _ => max_le_iff)

/-- Characterisation of `List.min?` over the rationals. -/
theorem min?_rat_iff (l : List ℚ) (m : ℚ) :
    l.min? = some m ↔ m ∈ l ∧ ∀ x ∈ l, m ≤ x := by
  haveI : Std.Antisymm (fun (x1 x2 : ℚ) => x1 ≤ x2) := ⟨fun h h2 => le_antisymm h h2⟩
  exact List.min?_eq_some_iff (fun _ => le_refl _) min_choice (fun _ _ _ => le_min_iff)

/-- Index characterisation of `List.find?`: the returned element is the
one at the lowest index satisfying the predicate. -/
theorem find?_first_iff {α : Type _} (p : α → Bool) (C : List α) (a : α) :
    C.find? p = some a ↔
      ∃ i : Fin C.length, C.get i = a ∧ p a = true ∧
        ∀ j : Fin C.length, j.val < i.val → p (C.get j) = false := by
  induction C with
  | nil =>
      constructor
      · intro h; simp [List.find?] at h
      · rintro ⟨i, -⟩; exact i.elim0
  | cons c cs ih =>
      by_cases h : p c
      · simp only [List.find?, h, Option.some.injEq]
        constructor
        · rintro rfl
          exact ⟨⟨0, Nat.succ_pos _⟩, rfl, h, fun j hj => absurd hj (Nat.not_lt_zero _)⟩
        · rintro ⟨⟨iv, hiv⟩, hget, hm, hfirst⟩
          cases iv with
          | zero => exact hget
          | succ k =>
              have h0 := hfirst ⟨0, Nat.succ_pos _⟩ (Nat.succ_pos k)
              simp only [List.get] at h0
              rw [h0] at h
              exact absurd h (by simp)
      · have hfind : (c :: cs).find? p = cs.find? p := by
          simp [List.find?, h]
        rw [hfind, ih]
        constructor
        · rintro ⟨k, hget, hm, hfirst⟩
          refine ⟨⟨k.val + 1, Nat.succ_lt_succ k.isLt⟩, ?_, hm, ?_⟩
          · simpa [List.get] using hget
          · rintro ⟨jv, hj⟩ hlt
            cases jv with
            | zero => simpa [List.get] using h
            | succ j' =>
                have hj' : j' < cs.length := Nat.lt_of_succ_lt_succ hj
                have := hfirst ⟨j', hj'⟩ (Nat.lt_of_succ_lt_succ hlt)
                simpa [List.get] using this
        · rintro ⟨⟨iv, hiv⟩, hget, hm, hfirst⟩
          cases iv with
          | zero =>
              have hca : c = a := by simpa [List.get] using hget
              rw [← hca] at hm
              exact absurd hm (by simp [h])
          | succ k =>
              have hk : k < cs.length := Nat.lt_of_succ_lt_succ hiv
              refine ⟨⟨k, hk⟩, by simpa [List.get] using hget, hm, ?_⟩
              intro j hlt
              have := hfirst ⟨j.val + 1, Nat.succ_lt_succ j.isLt⟩ (Nat.succ_lt_succ hlt)
              simpa [List.get] using this

/-- C1: for every alarm title and every catalog, `classify_alarm` returns
the catalog entry at the lowest index all of whose lowercase
whitespace-delimited keywords occur as substrings of the lowercased title,
and `none` exactly when no catalog entry qualifies; iteration follows the
catalog list order as configured. -/
theorem classify_alarm_first_match (C : List String) (T : String) :
    (classify_alarm C T = none ↔ ∀ a ∈ C, keyword_match (toLowerStr T) a = false) ∧
    ∀ a : String, classify_alarm C T = some a ↔
      ∃ i : Fin C.length, C.get i = a ∧ keyword_match (toLowerStr T) a = true ∧
        ∀ j : Fin C.length, j.val < i.val → keyword_match (toLowerStr T) (C.get j) = false := by
  constructor
  · simp [classify_alarm, List.find?_eq_none]
  · intro a
    simpa [classify_alarm] using
      find?_first_iff (fun alarm_type => keyword_match (toLowerStr T) alarm_type) C a

/-- C6: for every sample list, `speed_kmh` is the maximum absolute value
of the non-null samples multiplied by 3.6, absent exactly when there are
no rows or no non-null values; on the samples `[-2.0, 1.0, -3.5]` it is
`12.6`. -/
theorem speed_reduction_max_abs (points : List (Option ℚ)) :
    (speed_kmh_of points = none ↔ points.filterMap id = []) ∧
    (∀ q : ℚ, speed_kmh_of points = some q ↔
      ∃ v ∈ points.filterMap id,
        (∀ w ∈ points.filterMap id, |w| ≤ |v|) ∧ q = |v| * 3.6) ∧
    speed_kmh_of [some (-2), some 1, some (-3.5)] = some 12.6 := by
  refine ⟨?_, ?_, ?_⟩
  case refine_3 =>
    have h1 : |(7 : ℚ)/2| = 7/2 := abs_of_nonneg (by norm_num)
    have h2 : (2 : ℚ) ⊔ 7/2 = 7/2 := max_eq_right (by norm_num)
    norm_num [speed_kmh_of, List.filterMap, List.max?, h1, h2]
  · unfold speed_kmh_of
    by_cases hp : points.isEmpty
    · have : points = [] := by simpa [List.isEmpty_iff] using hp
      subst this; simp
    · simp only [hp, if_false, Bool.false_eq_true]
      cases hmax : ((points.filterMap id).map (fun v => |v|)).max? with
      | none =>
          have : points.filterMap id = [] := by
            have := List.max?_eq_none_iff.mp hmax
            simpa using this
          simp [this]
      | some m =>
          obtain ⟨hmem, -⟩ := (max?_rat_iff _ m).mp hmax
          obtain ⟨v, hv, -⟩ := List.mem_map.mp hmem
          exact iff_of_false (by simp) (fun hnil => by
            rw [hnil] at hv; exact absurd hv (List.not_mem_nil v))
  · intro q
    unfold speed_kmh_of
    by_cases hp : points.isEmpty
    · have : points = [] := by simpa [List.isEmpty_iff] using hp
      subst this; simp
    · simp only [hp, if_false, Bool.false_eq_true]
      cases hmax : ((points.filterMap id).map (fun v => |v|)).max? with
      | none =>
          have hnil : points.filterMap id = [] := by
            have := List.max?_eq_none_iff.mp hmax
            simpa using this
          simp [hnil]
      | some m =>
          obtain ⟨hmem, hbound⟩ := (max?_rat_iff _ m).mp hmax
          obtain ⟨v, hv, hvm⟩ := List.mem_map.mp hmem
          constructor
          · intro hq
            have hq' : q = m * 3.6 := (Option.some.inj hq).symm
            exact ⟨v, hv, fun w hw => by
              have := hbound |w| (List.mem_map.mpr ⟨w, hw, rfl⟩)
              simpa [hvm] using this, by rw [hq', ← hvm]⟩
          · rintro ⟨u, hu, hubnd, rfl⟩
            have h₁ : |u| ≤ m := hbound |u| (List.mem_map.mpr ⟨u, hu, rfl⟩)
            have h₂ : m ≤ |u| := by
              rw [← hvm]; exact hubnd v hv
            rw [le_antisymm h₁ h₂]

/-- C7: for every sample window, the pitch (and identically roll)
reduction divides each non-null sample by the conversion factor 0.0174444,
reports the maximum absolute converted value as the headline together with
the unmodified minimum and maximum converted values, all rounded to 2
decimal places, and leaves every field absent when there are no rows; on
raw samples `[0.01, -0.02, 0.015]` it yields `(1.15, -1.15, 0.86)`. -/
theorem attitude_of_some (points : List (Option ℚ)) (hp : ¬ points.isEmpty = true)
    (mA mLo mHi : ℚ) (hA : ((conv_deg points).map (fun v => |v|)).max? = some mA)
    (hLo : (conv_deg points).min? = some mLo) (hHi : (conv_deg points).max? = some mHi) :
    attitude_of points = some (round2 mA, round2 mLo, round2 mHi) := by
  unfold attitude_of
  rw [if_neg hp]
  simp only [conv_deg] at hA hLo hHi
  simp only [hA, hLo, hHi]

/-- Existence of the three extrema over a non-empty converted window. -/
theorem attitude_extrema_exist (points : List (Option ℚ))
    (hnil : points.filterMap id ≠ []) :
    ∃ mA mLo mHi, ((conv_deg points).map (fun v => |v|)).max? = some mA ∧
      (conv_deg points).min? = some mLo ∧ (conv_deg points).max? = some mHi := by
  have hcnil : conv_deg points ≠ [] := by simp [conv_deg, hnil]
  have h₁ : ∃ a, ((conv_deg points).map (fun v => |v|)).max? = some a := by
    cases hx : ((conv_deg points).map (fun v => |v|)).max? with
    | none => exact absurd (by simpa using List.max?_eq_none_iff.mp hx) hcnil
    | some a => exact ⟨a, rfl⟩
  have h₂ : ∃ a, (conv_deg points).min? = some a := by
    cases hx : (conv_deg points).min? with
    | none => exact absurd (List.min?_eq_none_iff.mp hx) hcnil
    | some a => exact ⟨a, rfl⟩
  have h₃ : ∃ a, (conv_deg points).max? = some a := by
    cases hx : (conv_deg points).max? with
    | none => exact absurd (List.max?_eq_none_iff.mp hx) hcnil
    | some a => exact ⟨a, rfl⟩
  obtain ⟨mA, hA⟩ := h₁
  obtain ⟨mLo, hLo⟩ := h₂
  obtain ⟨mHi, hHi⟩ := h₃
  exact ⟨mA, mLo, mHi, hA, hLo, hHi⟩

/-- C7: for every sample window, the pitch (and identically roll)
reduction divides each non-null sample by the conversion factor 0.0174444,
reports the maximum absolute converted value as the headline together with
the unmodified minimum and maximum converted values, all rounded to 2
decimal places, and leaves every field absent when there are no rows; on
raw samples `[0.01, -0.02, 0.015]` it yields `(1.15, -1.15, 0.86)`. -/
theorem attitude_reduction (points : List (Option ℚ)) :
    (attitude_of points = none ↔ points.filterMap id = []) ∧
    (∀ d mn mx : ℚ, attitude_of points = some (d, mn, mx) ↔
      (∃ v ∈ conv_deg points, (∀ w ∈ conv_deg points, |w| ≤ |v|) ∧ d = round2 |v|) ∧
      (∃ v ∈ conv_deg points, (∀ w ∈ conv_deg points, v ≤ w) ∧ mn = round2 v) ∧
      (∃ v ∈ conv_deg points, (∀ w ∈ conv_deg points, w ≤ v) ∧ mx = round2 v)) ∧
    attitude_of [some 0.01, some (-0.02), some 0.015] = some (1.15, -1.15, 0.86) := by
  refine ⟨?_, ?_, ?_⟩
  · by_cases hp : points.isEmpty
    · have : points = [] := by simpa [List.isEmpty_iff] using hp
      subst this; simp [attitude_of]
    · by_cases hnil : points.filterMap id = []
      · simp [attitude_of, hp, hnil, List.max?_eq_none_iff, List.min?_eq_none_iff]
      · obtain ⟨mA, mLo, mHi, hA, hLo, hHi⟩ := attitude_extrema_exist points hnil
        rw [attitude_of_some points hp mA mLo mHi hA hLo hHi]
        exact iff_of_false (by simp) hnil
  · intro d mn mx
    by_cases hp : points.isEmpty
    · have : points = [] := by simpa [List.isEmpty_iff] using hp
      subst this; simp [attitude_of, conv_deg]
    · by_cases hnil : points.filterMap id = []
      · simp [attitude_of, hp, hnil, conv_deg, List.max?_eq_none_iff,
          List.min?_eq_none_iff]
      · obtain ⟨mA, mLo, mHi, hA, hLo, hHi⟩ := attitude_extrema_exist points hnil
        rw [attitude_of_some points hp mA mLo mHi hA hLo hHi]
        obtain ⟨hAmem, hAbnd⟩ := (max?_rat_iff _ mA).mp hA
        obtain ⟨vA, hvA, hvAm⟩ := List.mem_map.mp hAmem
        obtain ⟨hLomem, hLobnd⟩ := (min?_rat_iff _ mLo).mp hLo
        obtain ⟨hHimem, hHibnd⟩ := (max?_rat_iff _ mHi).mp hHi
        constructor
        · intro hq
          have h := Option.some.inj hq
          have h₁ : round2 mA = d := congrArg Prod.fst h
          have h₂ : round2 mLo = mn := congrArg (fun p => p.2.1) h
          have h₃ : round2 mHi = mx := congrArg (fun p => p.2.2) h
          refine ⟨⟨vA, hvA, ?_, by rw [← h₁, ← hvAm]⟩,
                  ⟨mLo, hLomem, hLobnd, h₂.symm⟩,
                  ⟨mHi, hHimem, fun w hw => hHibnd w hw, h₃.symm⟩⟩
          intro w hw
          have := hAbnd |w| (List.mem_map.mpr ⟨w, hw, rfl⟩)
          rwa [hvAm]
        · rintro ⟨⟨u, hu, hubnd, rfl⟩, ⟨a, ha, habnd, rfl⟩, ⟨b, hb, hbbnd, rfl⟩⟩
          have e₁ : mA = |u| := by
            have hx : |u| ≤ mA := hAbnd |u| (List.mem_map.mpr ⟨u, hu, rfl⟩)
            have hy : mA ≤ |u| := by rw [← hvAm]; exact hubnd vA hvA
            exact le_antisymm hy hx
          have e₂ : mLo = a := by
            have hx : mLo ≤ a := hLobnd a ha
            have hy : a ≤ mLo := habnd mLo hLomem
            exact le_antisymm hx hy
          have e₃ : mHi = b := by
            have hx : b ≤ mHi := hHibnd b hb
            have hy : mHi ≤ b := hbbnd mHi hHimem
            exact le_antisymm hy hx
          rw [e₁, e₂, e₃]
  · norm_num [attitude_of, List.filterMap, List.max?, List.min?, List.foldl,
      max_def, min_def, deg_factor, round2, py_round_int, abs]

/-- Counting single quotes distributes over string append. -/
theorem quoteCount_append (a b : String) :
    quoteCount (a ++ b) = quoteCount a + quoteCount b := by
  simp [quoteCount, String.toList, List.countP_append]

/-- C8: at the telemetry correlation for vehicle `DT059` with
`max_points_per_query = 1000`, the speed sub-query issued by the
cancellation-aware path carries neither an `ORDER BY time DESC` nor any
`LIMIT` clause, while the off-path, pitch and roll sub-queries are capped
at 1000 rows most-recent-first and the position sub-query requests at most
one row — contradicting the claim that all non-position sub-queries are
capped. -/
theorem speed_query_uncapped :
    strContains "LIMIT"
      (speed_query "2024-01-15T10:29:59.500000Z" "2024-01-15T10:30:00.500000Z" "DT059")
      = false ∧
    strContains "ORDER BY"
      (speed_query "2024-01-15T10:29:59.500000Z" "2024-01-15T10:30:00.500000Z" "DT059")
      = false ∧
    capped_most_recent_first
      (offpath_query "2024-01-15T10:29:59.500000Z" "2024-01-15T10:30:00.500000Z" "DT059" 1000)
      1000 ∧
    capped_most_recent_first
      (pitch_query "2024-01-15T10:29:59.500000Z" "2024-01-15T10:30:00.500000Z" "DT059" 1000)
      1000 ∧
    capped_most_recent_first
      (roll_query "2024-01-15T10:29:59.500000Z" "2024-01-15T10:30:00.500000Z" "DT059" 1000)
      1000 ∧
    strContains "LIMIT 1"
      (gps_query "2024-01-15T10:29:59.500000Z" "2024-01-15T10:30:00.500000Z" "DT059")
      = true := by
  exact ⟨by decide, by decide, ⟨by decide, by decide⟩, ⟨by decide, by decide⟩,
         ⟨by decide, by decide⟩, by decide⟩

/-- C9 counterexample: for the vehicle identifier
`DT059' OR '1'='1`, the produced vehicle condition contains six single
quotes instead of the two delimiting ones, so the query text produced by
the (escaping-free) construction is not well-formed for inputs carrying
quote metacharacters. -/
theorem vehicle_condition_not_escaped :
    quoteCount (vehicle_condition inj_vehicle) = 6 ∧
    ¬ quoteCount (vehicle_condition inj_vehicle) = 2 := by
  constructor <;> decide

/-- C9 (amended): query construction interpolates the vehicle identifier
verbatim without escaping, so the produced condition carries the two
delimiting quotes plus every quote of the identifier, and is well-formed
(exactly two single quotes) precisely when the identifier itself contains
no single quote. -/
theorem vehicle_condition_quote_balance (v : String) :
    quoteCount (vehicle_condition v) = 2 + quoteCount v ∧
    (quoteCount (vehicle_condition v) = 2 ↔ quoteCount v = 0) := by
  have h : quoteCount (vehicle_condition v) = 2 + quoteCount v := by
    rw [vehicle_condition, quoteCount_append, quoteCount_append, quoteCount_append]
    have c1 : quoteCount "\"Vehicle\" = " = 0 := by decide
    have c2 : quoteCount sq = 1 := by decide
    rw [c1, c2]
    omega
  exact ⟨h, by rw [h]; omega⟩

/-- Unfolding of the monad's bind for the pipeline monad. -/
theorem M.bind_eq {α β : Type} (x : M α) (f : α → M β) : x >>= f = M.bind x f := rfl

/-- Unfolding of the monad's pure for the pipeline monad. -/
theorem M.pure_eq {α : Type} (a : α) : (pure a : M α) = M.pure a := rfl

/-- Applied form of the monad's pure for the pipeline monad. -/
theorem M.pure_apply {α : Type} (a : α) (s : St) : (pure a : M α) s = .ok a s := rfl

/-- Symbolic execution: with cancellation visible from the first
checkpoint, the extraction call raises the cancellation message before
issuing any sub-query. -/
theorem job_extract_cancelled_from_start (r : RunEnv)
    (hconn : r.env.connected = true) (hflag : r.flag_from = some 0)
    (hdur : ¬ (30 < (r.request_end - r.request_start) / 3600)) :
    result_of (job_extract r) = .error "Extraction cancelled by user" := by
  simp [job_extract, extract_alarm_events, get_alarm_timestamps_with_cancellation,
    read_cancel, read_flag, flag_at, check_at, M.bind, M.pure, M.attempt, M.raise,
    M.logQuery, M.bind_eq, M.pure_eq, M.pure_apply, hconn, hflag, hdur, result_of, conn_st]

/-- Symbolic execution: a non-cancellation locator failure is caught by
the locator, which returns the empty event list, so the extraction call
succeeds with no events. -/
theorem job_extract_locator_error (r : RunEnv) (msg : String)
    (hconn : r.env.connected = true) (hflag : r.flag_from = none)
    (hloc : r.env.locator_outcome = .error msg) (hmsg : is_cancel_msg msg = false)
    (hdur : ¬ (30 < (r.request_end - r.request_start) / 3600)) :
    result_of (job_extract r) = .ok [] := by
  by_cases hempty : (alarm_conditions_of r.selected_alarms r.catalog).isEmpty
  all_goals
    simp [job_extract, extract_alarm_events, get_alarm_timestamps_with_cancellation,
      query_with_cancellation, execute_query_with_cancellation,
      read_cancel, read_flag, flag_at, check_at, M.bind, M.pure, M.attempt, M.raise,
      M.logQuery, M.bind_eq, M.pure_eq, M.pure_apply, hconn, hflag, hempty, hdur, hloc, hmsg, result_of]

/-- Linking lemma: a successful extraction yields the `completed` update. -/
theorem run_of_extract_ok (r : RunEnv) (hconn : r.env.connected = true)
    (events : List EnrichedEvent) (h : result_of (job_extract r) = .ok events) :
    (run_alarm_extraction r).1 = completed_job events := by
  unfold run_alarm_extraction
  rw [hconn]
  cases hE : job_extract r with
  | ok ev s => rw [hE] at h; simp [result_of] at h; subst h; simp
  | err e s => rw [hE] at h; simp [result_of] at h

/-- Linking lemma: a raising extraction yields the failure update. -/
theorem run_of_extract_err (r : RunEnv) (hconn : r.env.connected = true)
    (msg : String) (h : result_of (job_extract r) = .error msg) :
    (run_alarm_extraction r).1 = failure_update connected_job msg := by
  unfold run_alarm_extraction
  rw [hconn]
  cases hE : job_extract r with
  | ok ev s => rw [hE] at h; simp [result_of] at h
  | err e s => rw [hE] at h; simp [result_of] at h; subst h; simp

/-- C2 counterexample: for the concrete job in which cancellation is
requested at the very first checkpoint, before any sub-query begins, the
job terminates in status `failed` — not in the status `cancelled` the
claim requires (no path of `run_alarm_extraction` ever assigns
`cancelled`). -/
theorem cancelled_job_reports_failed_status :
    (run_alarm_extraction run_env_cancelled).1.status = "failed" ∧
    ¬ (run_alarm_extraction run_env_cancelled).1.status = "cancelled" := by
  have hdur : ¬ ((30:ℚ) < ((3600:ℚ) - 0) / 3600) := by norm_num
  have h : result_of (job_extract run_env_cancelled)
      = .error "Extraction cancelled by user" := by
    simp [job_extract, extract_alarm_events, get_alarm_timestamps_with_cancellation,
      read_cancel, read_flag, flag_at, check_at, M.bind, M.pure, M.attempt, M.raise,
      M.logQuery, M.bind_eq, M.pure_eq, M.pure_apply, hdur, result_of, run_env_cancelled, base_run_env,
      base_extract_env, conn_st]
  unfold run_alarm_extraction
  cases hE : job_extract run_env_cancelled with
  | ok ev s => rw [hE] at h; simp [result_of] at h
  | err e s =>
      rw [hE] at h; simp [result_of] at h; subst h
      simp [run_env_cancelled, base_run_env, base_extract_env, failure_update,
        connected_job, running_job, create_extraction_job]

/-- C2 (amended): the extractor resets its cancellation flag when
extraction begins, and `main.py` maps every exception — cancellation
included — to `failed`: every job terminates as `completed` or `failed`,
never `cancelled`; when cancellation is observed from the first checkpoint
(before any sub-query), the job terminates as `failed` carrying the
cancellation message, with the accumulated event list empty, so no
telemetry field of any unprocessed event is populated. -/
theorem cancellation_terminates_as_failed :
    (∀ r : RunEnv, (run_alarm_extraction r).1.status = "completed" ∨
      (run_alarm_extraction r).1.status = "failed") ∧
    ∀ r : RunEnv, r.env.connected = true → r.flag_from = some 0 →
      ¬ (30 < (r.request_end - r.request_start) / 3600) →
      (run_alarm_extraction r).1.status = "failed" ∧
      (run_alarm_extraction r).1.message =
        "Extraction failed: Extraction cancelled by user" ∧
      (run_alarm_extraction r).1.alarm_events = [] := by
  constructor
  · intro r
    unfold run_alarm_extraction
    cases hconn : r.env.connected with
    | false => right; simp [failure_update]
    | true =>
        cases hE : job_extract r with
        | ok ev s => left; simp [completed_job, connected_job, running_job]
        | err e s => right; simp [failure_update]
  · intro r hconn hflag hdur
    have h := job_extract_cancelled_from_start r hconn hflag hdur
    rw [run_of_extract_err r hconn _ h]
    simp [failure_update, connected_job, running_job, create_extraction_job]

/-- C2 witness: the amended statement evaluated on the concrete job with
cancellation visible from the first checkpoint. -/
theorem cancellation_terminates_as_failed_witness :
    (run_alarm_extraction run_env_cancelled).1.status = "failed" ∧
    (run_alarm_extraction run_env_cancelled).1.message =
      "Extraction failed: Extraction cancelled by user" ∧
    (run_alarm_extraction run_env_cancelled).1.alarm_events = [] :=
  cancellation_terminates_as_failed.2 run_env_cancelled rfl rfl
    (by norm_num [run_env_cancelled, base_run_env])

/-- C3 counterexample: for the concrete job whose alarm-locator query
fails by timeout without cancellation, the job terminates as `completed`
with zero events — not as `failed` as the claim requires. -/
theorem locator_timeout_job_completes :
    (run_alarm_extraction run_env_locator_timeout).1.status = "completed" ∧
    ¬ (run_alarm_extraction run_env_locator_timeout).1.status = "failed" ∧
    (run_alarm_extraction run_env_locator_timeout).1.alarm_events = [] := by
  have hdur : ¬ ((30:ℚ) < ((3600:ℚ) - 0) / 3600) := by norm_num
  have hmsg : is_cancel_msg "Query timeout after 10s: alarm timestamps query" = false := by
    decide
  have h : result_of (job_extract run_env_locator_timeout) = .ok [] := by
    simp [job_extract, extract_alarm_events, get_alarm_timestamps_with_cancellation,
      query_with_cancellation, execute_query_with_cancellation, alarm_conditions_of,
      read_cancel, read_flag, flag_at, check_at, M.bind, M.pure, M.attempt, M.raise,
      M.logQuery, M.bind_eq, M.pure_eq, M.pure_apply, hdur, hmsg, result_of, run_env_locator_timeout,
      base_run_env, base_extract_env, conn_st]
  rw [run_of_extract_ok run_env_locator_timeout rfl [] h]
  simp [completed_job, connected_job, running_job, create_extraction_job]

/-- C3 (amended): a failure of the alarm-locator query without
cancellation is caught inside the locator, which logs it and returns an
empty event list, so the whole job terminates as `completed` with zero
events rather than as `failed`; telemetry sub-query failures remain
isolated per-field, and connection failures still fail the job. -/
theorem locator_failure_swallowed (r : RunEnv) (msg : String)
    (hconn : r.env.connected = true) (hflag : r.flag_from = none)
    (hloc : r.env.locator_outcome = .error msg) (hmsg : is_cancel_msg msg = false)
    (hdur : ¬ (30 < (r.request_end - r.request_start) / 3600)) :
    (run_alarm_extraction r).1.status = "completed" ∧
    (run_alarm_extraction r).1.alarm_events = [] := by
  have h := job_extract_locator_error r msg hconn hflag hloc hmsg hdur
  rw [run_of_extract_ok r hconn [] h]
  simp [completed_job, connected_job, running_job, create_extraction_job]

/-- C3 witness: the amended statement evaluated on the concrete job whose
locator query fails by timeout. -/
theorem locator_failure_swallowed_witness :
    (run_alarm_extraction run_env_locator_timeout).1.status = "completed" ∧
    (run_alarm_extraction run_env_locator_timeout).1.alarm_events = [] :=
  locator_failure_swallowed run_env_locator_timeout
    "Query timeout after 10s: alarm timestamps query"
    rfl rfl rfl (by decide) (by norm_num [run_env_locator_timeout, base_run_env])

/-- C4: when no selected alarm type occurs in the current catalog, the
alarm locator returns the empty sequence immediately — consuming one
checkpoint and issuing no store query (the query log is untouched) — and
the job terminates as `completed` with zero events, the only query in the
job's log being the connection smoke test. -/
theorem no_catalog_intersection_no_query (r : RunEnv)
    (hconn : r.env.connected = true) (hflag : r.flag_from = none)
    (hsel : r.selected_alarms.filter (fun a => r.catalog.contains a) = [])
    (hdur : ¬ (30 < (r.request_end - r.request_start) / 3600)) :
    (∀ s : St, get_alarm_timestamps_with_cancellation
        { flag_from := r.flag_from, check := none } r.catalog
        r.env.locator_outcome r.env.outer_window.1 r.env.outer_window.2
        r.selected_alarms r.selected_vehicles s
        = .ok [] { s with tick := s.tick + 1 }) ∧
    (run_alarm_extraction r).1.status = "completed" ∧
    (run_alarm_extraction r).1.alarm_events = [] ∧
    (run_alarm_extraction r).2.qlog = [connection_test_query] := by
  have hconds : alarm_conditions_of r.selected_alarms r.catalog = [] := by
    unfold alarm_conditions_of
    rw [hsel]
    rfl
  have hloc : ∀ s : St, get_alarm_timestamps_with_cancellation
      { flag_from := r.flag_from, check := none } r.catalog
      r.env.locator_outcome r.env.outer_window.1 r.env.outer_window.2
      r.selected_alarms r.selected_vehicles s
      = .ok [] { s with tick := s.tick + 1 } := by
    intro s
    simp [get_alarm_timestamps_with_cancellation, read_cancel, flag_at, check_at,
      M.bind, M.pure, M.raise, M.bind_eq, M.pure_eq, M.pure_apply, hconds, hflag]
  have hjob : job_extract r = .ok [] { tick := 1, qlog := [connection_test_query] } := by
    simp [job_extract, extract_alarm_events, get_alarm_timestamps_with_cancellation,
      read_cancel, read_flag, flag_at, check_at, M.bind, M.pure, M.attempt, M.raise,
      M.logQuery, M.bind_eq, M.pure_eq, M.pure_apply, hconn, hflag, hconds, hdur, conn_st]
  have hrun : run_alarm_extraction r =
      (completed_job [], { tick := 1, qlog := [connection_test_query] }) := by
    unfold run_alarm_extraction
    rw [hconn, hjob]
    simp
  refine ⟨hloc, ?_, ?_, ?_⟩ <;>
    simp [hrun, completed_job, connected_job, running_job, create_extraction_job]

/-- C4 witness: the statement evaluated on the concrete job selecting only
an alarm type absent from the catalog. -/
theorem no_catalog_intersection_no_query_witness :
    get_alarm_timestamps_with_cancellation
      { flag_from := run_env_unknown_alarm.flag_from, check := none }
      run_env_unknown_alarm.catalog run_env_unknown_alarm.env.locator_outcome
      run_env_unknown_alarm.env.outer_window.1 run_env_unknown_alarm.env.outer_window.2
      run_env_unknown_alarm.selected_alarms run_env_unknown_alarm.selected_vehicles
      init_st = .ok [] { init_st with tick := init_st.tick + 1 } ∧
    (run_alarm_extraction run_env_unknown_alarm).1.status = "completed" ∧
    (run_alarm_extraction run_env_unknown_alarm).1.alarm_events = [] ∧
    (run_alarm_extraction run_env_unknown_alarm).2.qlog = [connection_test_query] := by
  have h := no_catalog_intersection_no_query run_env_unknown_alarm rfl rfl
    (by decide) (by norm_num [run_env_unknown_alarm, base_run_env])
  exact ⟨h.1 init_st, h.2.1, h.2.2.1, h.2.2.2⟩

/-- C5: every request whose time range has `end ≤ start` or a duration
above 30 hours is rejected by `validate_time_range` while the request is
parsed, before any job is created or scheduled, so the system issues no
store query for it. -/
theorem invalid_time_range_rejected (start endT : ℚ) (selected : List String)
    (r : RunEnv) (h : endT ≤ start ∨ 30 * 3600 < endT - start) :
    (∃ msg, submit_extraction start endT selected = .error msg) ∧
    system_queries start endT selected r = [] := by
  have hrej : ∃ msg, validate_time_range start endT = .error msg := by
    by_cases hle : endT ≤ start
    · exact ⟨"End time must be after start time", by simp [validate_time_range, hle]⟩
    · rcases h with h | h
      · exact absurd h hle
      · refine ⟨"Time range cannot exceed 30 hours", ?_⟩
        have h30 : 30 < (endT - start) / 3600 := by
          rw [lt_div_iff₀ (by norm_num : (0:ℚ) < 3600)]
          linarith
        simp [validate_time_range, hle, h30]
  obtain ⟨msg, hmsg⟩ := hrej
  have hsub : submit_extraction start endT selected = .error msg := by
    simp [submit_extraction, hmsg]
  exact ⟨⟨msg, hsub⟩, by simp [system_queries, hsub]⟩

/-- C5 witness: a request with `end = start` is rejected and produces no
store query. -/
theorem invalid_time_range_rejected_witness :
    (∃ msg, submit_extraction 0 0 ["Off Path"] = .error msg) ∧
    system_queries 0 0 ["Off Path"] base_run_env = [] :=
  invalid_time_range_rejected 0 0 ["Off Path"] base_run_env (Or.inl le_rfl)

/-- C10: the failure handler rewrites only `status`, `message` and
`current_operation`; `progress`, the accumulated `alarm_events` and the
summary are untouched, so the status poll of a failed job reports the last
progress value reached before the failure — which along the orchestrator's
paths is the value 10 (failed connect) or 20 (failed extraction). -/
theorem failure_update_frame :
    (∀ (j : JobRecord) (e : String),
      (failure_update j e).progress = j.progress ∧
      (failure_update j e).alarm_events = j.alarm_events ∧
      (failure_update j e).summary = j.summary ∧
      get_extraction_status (failure_update j e) =
        { get_extraction_status j with
            status := "failed", message := "Extraction failed: " ++ e,
            current_operation := "Failed: " ++ e }) ∧
    ∀ r : RunEnv, (run_alarm_extraction r).1.status = "failed" →
      (run_alarm_extraction r).1.progress = 10 ∨
      (run_alarm_extraction r).1.progress = 20 := by
  constructor
  · intro j e
    refine ⟨rfl, rfl, rfl, ?_⟩
    simp [failure_update, get_extraction_status]
  · intro r h
    unfold run_alarm_extraction at h ⊢
    cases hconn : r.env.connected with
    | false =>
        simp [failure_update, running_job, create_extraction_job]
    | true =>
        cases hE : job_extract r with
        | ok ev s =>
            rw [hE] at h
            simp [hconn, completed_job, connected_job, running_job,
              create_extraction_job] at h
        | err e s =>
            simp [failure_update, connected_job, running_job, create_extraction_job]

/-- C10 witness: the run-level statement evaluated on the concrete job
whose connection fails, which reports the progress value 10. -/
theorem failure_update_frame_witness :
    (run_alarm_extraction run_env_conn_fail).1.progress = 10 ∨
    (run_alarm_extraction run_env_conn_fail).1.progress = 20 :=
  failure_update_frame.2 run_env_conn_fail (by
    simp [run_alarm_extraction, run_env_conn_fail, base_run_env, base_extract_env,
      failure_update, running_job, create_extraction_job])

end AlarmAnalysis
